import Mathlib

/-!
Shallow embedding of the pairwise force-and-integration core of the
QuantumParticleInteractionSim repository.

Two variants exist in the source:
  * `src/server.js` — `simulate(bodies, dt, steps, jitter)`: Newtonian-gravity
    batch trajectory computation.  Bodies are records with fields
    `mass, x, y, vx, vy`; per step the code accumulates pairwise forces over
    all index pairs `i < j`, then advances velocity and position by an
    explicit Euler step, adding a random jitter term to each position axis,
    and records a snapshot of all positions after the step.
  * `src/quantum_sim.js` — the Coulomb-like real-time variant: per frame,
    for each pair `i < j` a force vector is computed from the separation
    vector with the squared distance floored at `MIN_DIST_SQ`, and applied
    with factor `+1` to particle `i` and `-1` to particle `j`.

Machine reals are embedded as `ℝ` (exact real arithmetic); `Math.sqrt` is
`Real.sqrt`.  The JS literal `1e-8` is written `1 / 100000000`.  The stream
of `Math.random()` draws is threaded explicitly as a function
`rand : ℕ → ℕ → ℕ → ℝ` giving the draw for (step, body index, axis),
matching the deterministic consumption order of the source loop.
-/

noncomputable section

namespace QSim

/-- A body as posted to `/simulate` in `src/server.js`: fields
`mass`, `x`, `y`, `vx`, `vy`. -/
structure Body where
  mass : ℝ
  x : ℝ
  y : ℝ
  vx : ℝ
  vy : ℝ

instance : Inhabited Body := ⟨⟨0, 0, 0, 0, 0⟩⟩

/-- Scaled gravitational constant, `const G = 1.0` in `src/server.js`. -/
def G : ℝ := 1

/-- The squared-distance denominator of the gravity variant
(`src/server.js` line 58): `distSq = dx*dx + dy*dy + 1e-8`. -/
def gravDistSq (dx dy : ℝ) : ℝ := dx * dx + dy * dy + 1 / 100000000

/-- The pairwise force vector of the gravity variant
(`src/server.js` lines 56-63): the vector `(fx, fy)` that the loop body
adds to `forces[i]` and subtracts from `forces[j]`. -/
def pairForce (bi bj : Body) : ℝ × ℝ :=
  let dx := bj.x - bi.x
  let dy := bj.y - bi.y
  let distSq := gravDistSq dx dy
  let dist := Real.sqrt distSq
  let forceMag := G * bi.mass * bj.mass / distSq
  (forceMag * (dx / dist), forceMag * (dy / dist))

/-- One iteration of the inner pair loop (`src/server.js` lines 56-67):
read bodies `i` and `j` from `state`, compute the pair force, add it to
`forces[i]` and subtract it from `forces[j]`. -/
def applyPair (state : List Body) (forces : List (ℝ × ℝ)) (p : ℕ × ℕ) :
    List (ℝ × ℝ) :=
  let f := pairForce (state.getD p.1 default) (state.getD p.2 default)
  let fs := forces.set p.1 (forces.getD p.1 (0, 0) + f)
  fs.set p.2 (fs.getD p.2 (0, 0) - f)

/-- Index pairs visited by the double loop `i < j < n`
(`src/server.js` lines 54-55), in loop order. -/
def pairIdx (n : ℕ) : List (ℕ × ℕ) :=
  (List.range n).flatMap fun i =>
    ((List.range n).filter fun j => i < j).map fun j => (i, j)

/-- The force-accumulation pass of one simulation step
(`src/server.js` lines 53-69): start from an all-zero force list
(`state.map(() => ({x: 0, y: 0}))`) and run the pair loop. -/
def accumForces (state : List Body) : List (ℝ × ℝ) :=
  (pairIdx state.length).foldl (applyPair state)
    (List.replicate state.length (0, 0))

/-- The body update of the integration loop (`src/server.js` lines 72-77)
for body index `i`: `ax = F/m`, `vx += ax*dt`,
`x += vx*dt + (rand - 0.5)*jitter` (with the freshly updated velocity),
and likewise for `y`; `randS i a` is the `Math.random()` draw for body `i`,
axis `a` (`0` for x, `1` for y). -/
def updateBody (dt jitter : ℝ) (randS : ℕ → ℕ → ℝ) (i : ℕ) (b : Body)
    (f : ℝ × ℝ) : Body :=
  let ax := f.1 / b.mass
  let ay := f.2 / b.mass
  let vx := b.vx + ax * dt
  let vy := b.vy + ay * dt
  { mass := b.mass
    x := b.x + vx * dt + (randS i 0 - 1 / 2) * jitter
    y := b.y + vy * dt + (randS i 1 - 1 / 2) * jitter
    vx := vx
    vy := vy }

/-- The velocity-and-position update loop (`src/server.js` lines 71-78),
walking `state` and `forces` in parallel with the body index. -/
def integrateAux (dt jitter : ℝ) (randS : ℕ → ℕ → ℝ) :
    ℕ → List Body → List (ℝ × ℝ) → List Body
  | _, [], _ => []
  | _, _ :: _, [] => []
  | i, b :: bs, f :: fs =>
      updateBody dt jitter randS i b f :: integrateAux dt jitter randS (i + 1) bs fs

/-- One full simulation step (`src/server.js` lines 52-78): accumulate the
pairwise forces, then update every velocity and position. -/
def stepBodies (dt jitter : ℝ) (randS : ℕ → ℕ → ℝ) (state : List Body) :
    List Body :=
  integrateAux dt jitter randS 0 state (accumForces state)

/-- The position snapshot pushed after each step
(`src/server.js` line 80): `state.map(b => ({x: b.x, y: b.y}))`. -/
def snapshot (state : List Body) : List (ℝ × ℝ) :=
  state.map fun b => (b.x, b.y)

/-- The step loop of `simulate` (`src/server.js` lines 51-81): `s` is the
current step counter (the first argument of `rand`), the final argument the
number of remaining iterations. -/
def simLoop (dt jitter : ℝ) (rand : ℕ → ℕ → ℕ → ℝ) :
    List Body → ℕ → ℕ → List (List (ℝ × ℝ))
  | _, _, 0 => []
  | st, s, k + 1 =>
      let st' := stepBodies dt jitter (rand s) st
      snapshot st' :: simLoop dt jitter rand st' (s + 1) k

/-- The per-body deep copy made on entry to `simulate`
(`src/server.js` lines 43-49). -/
def copyBody (b : Body) : Body :=
  { mass := b.mass, x := b.x, y := b.y, vx := b.vx, vy := b.vy }

/-- `simulate(bodies, dt, steps, jitter)` from `src/server.js` lines 41-83:
deep-copy the caller's bodies, run `steps` iterations of the force, update
and snapshot loop, and return the list of snapshots. -/
def simulate (bodies : List Body) (dt : ℝ) (steps : ℕ) (jitter : ℝ)
    (rand : ℕ → ℕ → ℕ → ℝ) : List (List (ℝ × ℝ)) :=
  simLoop dt jitter rand (bodies.map copyBody) 0 steps

/-- The state reached after running the step loop `k` times starting from
state `st` at step counter `s` (used to state which state each recorded
snapshot reflects). -/
def stateFrom (dt jitter : ℝ) (rand : ℕ → ℕ → ℕ → ℝ) :
    List Body → ℕ → ℕ → List Body
  | st, _, 0 => st
  | st, s, k + 1 => stateFrom dt jitter rand (stepBodies dt jitter (rand s) st) (s + 1) k

/-- Total linear momentum of a body list: the componentwise sum of
`mass * velocity` over all bodies. -/
def momentum (state : List Body) : ℝ × ℝ :=
  (state.map fun b => (b.mass * b.vx, b.mass * b.vy)).sum

/-- The all-zero random stream, used to instantiate theorems at concrete
inputs. -/
def zeroRand : ℕ → ℕ → ℕ → ℝ := fun _ _ _ => 0

/-- The squared-distance denominator the code computes for the spec
scenario separation of `10` along x: `10*10 + 0*0 + 1e-8`. -/
def d100 : ℝ := gravDistSq 10 0

/-- The exact per-body x-displacement the code produces in the spec
scenario (two unit masses at distance 10, `dt = 1`, one step):
`forceMag * (dx / dist)` with `forceMag = G*1*1/d100` and `dx = 10`. -/
def q100 : ℝ := G * 1 * 1 / d100 * (10 / Real.sqrt d100)

/-- Write the body values `vs` into `heap` at consecutive indices starting
at `s` (the per-body field assignments of one integration loop, viewed at
the granularity of whole heap objects). -/
def writeSlice : List Body → ℕ → List Body → List Body
  | h, _, [] => h
  | h, s, v :: vs => writeSlice (h.set s v) (s + 1) vs

/-- Heap-level model of the step loop of `simulate`: the `state` objects
created by `bodies.map(...)` live at heap indices `[n, n + m)`; every
iteration reads that slice, computes one step, writes the updated bodies
back to the same slice, and records a snapshot.  Returns the final heap
together with the trajectory. -/
def simLoopH (dt jitter : ℝ) (rand : ℕ → ℕ → ℕ → ℝ) (n m : ℕ) :
    List Body → ℕ → ℕ → List Body × List (List (ℝ × ℝ))
  | h, _, 0 => (h, [])
  | h, s, k + 1 =>
      let st' := stepBodies dt jitter (rand s) ((h.drop n).take m)
      let rest := simLoopH dt jitter rand n m (writeSlice h n st') (s + 1) k
      (rest.1, snapshot st' :: rest.2)

/-- Heap-level model of `simulate` (`src/server.js` lines 41-83), making
the object allocations and mutations explicit: the caller's body objects
occupy the initial heap; `bodies.map(b => ({...}))` (lines 43-49) allocates
fresh copies at the end of the heap; the loop mutates only those copies.
Returns the final heap and the trajectory. -/
def simulateH (bodies : List Body) (dt : ℝ) (steps : ℕ) (jitter : ℝ)
    (rand : ℕ → ℕ → ℕ → ℝ) : List Body × List (List (ℝ × ℝ)) :=
  simLoopH dt jitter rand bodies.length bodies.length
    (bodies ++ bodies.map copyBody) 0 steps

end QSim

namespace CSim

/-- `const MIN_DIST_SQ = 25` from `src/quantum_sim.js`. -/
def MIN_DIST_SQ : ℝ := 25

/-- `const COULOMB_CONSTANT = 500` from `src/quantum_sim.js`. -/
def COULOMB_CONSTANT : ℝ := 500

/-- A particle of the Coulomb variant (`src/quantum_sim.js`): position,
velocity and force accumulator are p5 2-vectors, embedded as pairs of
reals, plus a signed charge. -/
structure Particle where
  pos : ℝ × ℝ
  vel : ℝ × ℝ
  acc : ℝ × ℝ
  charge : ℝ

/-- `applyForce` of the `Particle` class (`src/quantum_sim.js` lines
49-51): add the force vector to the accumulator. -/
def applyForce (p : Particle) (force : ℝ × ℝ) : Particle :=
  { p with acc := p.acc + force }

/-- The squared-distance denominator of the Coulomb variant
(`src/quantum_sim.js` line 122): `distSq = max(direction.magSq(), MIN_DIST_SQ)`. -/
def coulombDistSq (dx dy : ℝ) : ℝ := max (dx * dx + dy * dy) MIN_DIST_SQ

/-- The force vector computed for one pair in the draw loop
(`src/quantum_sim.js` lines 121-129): the vector `force` that is then
applied with factor `+1` to `p1` and `-1` to `p2`. -/
def coulombForce (p1 p2 : Particle) : ℝ × ℝ :=
  let dx := p2.pos.1 - p1.pos.1
  let dy := p2.pos.2 - p1.pos.2
  let distSq := coulombDistSq dx dy
  let dist := Real.sqrt distSq
  let forceMag := COULOMB_CONSTANT * p1.charge * p2.charge / distSq
  ((dx / dist) * forceMag, (dy / dist) * forceMag)

/-- One pair interaction of the draw loop (`src/quantum_sim.js` lines
116-132): compute the pair force and apply it with factor `+1` to `p1`
and factor `-1` to `p2` (`p5.Vector.mult(force, 1)` and
`p5.Vector.mult(force, -1)`). -/
def coulombApplyPair (p1 p2 : Particle) : Particle × Particle :=
  let force := coulombForce p1 p2
  (applyForce p1 (1 • force), applyForce p2 ((-1 : ℝ) • force))

end CSim

end

/-! ### General list helper lemmas -/

lemma getD_set_self {α} [Inhabited α] (l : List α) (i : ℕ) (a d : α)
    (h : i < l.length) : (l.set i a).getD i d = a := by
  simp [List.getD, List.getElem?_set_self, h]

lemma getD_set_ne {α} [Inhabited α] (l : List α) (i j : ℕ) (a d : α)
    (h : i ≠ j) : (l.set i a).getD j d = l.getD j d := by
  simp [List.getD, List.getElem?_set_ne h]

lemma getD_append_lt {α} [Inhabited α] (l r : List α) (i : ℕ) (d : α)
    (h : i < l.length) : (l ++ r).getD i d = l.getD i d := by
  simp [List.getD, List.getElem?_append_left h]

lemma sum_set_eq {α} [AddCommGroup α] (l : List α) (a : α) :
    ∀ i, i < l.length → (l.set i a).sum = l.sum - l.getD i 0 + a := by
  induction l with
  | nil => intro i h; simp at h
  | cons x xs ih =>
    intro i h
    cases i with
    | zero => simp [List.getD]; abel
    | succ n =>
      simp only [List.set, List.sum_cons, List.getD_cons_succ,
        ih n (by simpa using h)]
      abel

namespace QSim

/-! ### Shape lemmas for the gravity-variant engine -/

lemma length_applyPair (state : List Body) (forces : List (ℝ × ℝ))
    (p : ℕ × ℕ) : (applyPair state forces p).length = forces.length := by
  simp [applyPair]

lemma length_foldl_applyPair (state : List Body) :
    ∀ (ps : List (ℕ × ℕ)) (fs : List (ℝ × ℝ)),
      (ps.foldl (applyPair state) fs).length = fs.length := by
  intro ps
  induction ps with
  | nil => intro fs; rfl
  | cons p ps ih => intro fs; simp [List.foldl_cons, ih, length_applyPair]

lemma length_accumForces (state : List Body) :
    (accumForces state).length = state.length := by
  simp [accumForces, length_foldl_applyPair]

lemma length_integrateAux (dt jitter : ℝ) (randS : ℕ → ℕ → ℝ) :
    ∀ (i : ℕ) (bs : List Body) (fs : List (ℝ × ℝ)),
      bs.length = fs.length → (integrateAux dt jitter randS i bs fs).length = bs.length := by
  intro i bs
  induction bs generalizing i with
  | nil => intro fs _; rfl
  | cons b bs ih =>
    intro fs hlen
    cases fs with
    | nil => simp at hlen
    | cons f fs =>
      simp only [integrateAux, List.length_cons, ih (i + 1) fs (by simpa using hlen)]

lemma length_stepBodies (dt jitter : ℝ) (randS : ℕ → ℕ → ℝ)
    (state : List Body) : (stepBodies dt jitter randS state).length = state.length := by
  simpa [stepBodies] using
    length_integrateAux dt jitter randS 0 state (accumForces state)
      (length_accumForces state).symm

lemma length_simLoop (dt jitter : ℝ) (rand : ℕ → ℕ → ℕ → ℝ) :
    ∀ (k : ℕ) (st : List Body) (s : ℕ), (simLoop dt jitter rand st s k).length = k := by
  intro k
  induction k with
  | zero => intro st s; rfl
  | succ k ih => intro st s; simp [simLoop, ih]

lemma length_simulate (bodies : List Body) (dt : ℝ) (steps : ℕ) (jitter : ℝ)
    (rand : ℕ → ℕ → ℕ → ℝ) : (simulate bodies dt steps jitter rand).length = steps := by
  simp [simulate, length_simLoop]

/-! ### The pair loop visits exactly the index pairs `i < j < n` -/

lemma mem_pairIdx {n : ℕ} {p : ℕ × ℕ} (hp : p ∈ pairIdx n) :
    p.1 < p.2 ∧ p.2 < n := by
  simp only [pairIdx, List.mem_flatMap, List.mem_map, List.mem_filter,
    List.mem_range] at hp
  obtain ⟨i, _, j, ⟨hj, hij⟩, rfl⟩ := hp
  exact ⟨by simpa using hij, hj⟩

/-! ### The pair loop leaves the total force at zero (third-law cancellation) -/

lemma pair_zero : ((0, 0) : ℝ × ℝ) = 0 := rfl

lemma sum_applyPair (state : List Body) (fs : List (ℝ × ℝ)) (p : ℕ × ℕ)
    (hi : p.1 < fs.length) (hj : p.2 < fs.length) :
    (applyPair state fs p).sum = fs.sum := by
  unfold applyPair
  rw [pair_zero]
  set f := pairForce (state.getD p.1 default) (state.getD p.2 default) with hf
  set fs1 := fs.set p.1 (fs.getD p.1 0 + f) with hfs1
  have hlen1 : fs1.length = fs.length := by simp [hfs1]
  have h1 : fs1.sum = fs.sum + f := by
    rw [hfs1, sum_set_eq _ _ p.1 hi]; abel
  rw [sum_set_eq _ _ p.2 (by rw [hlen1]; exact hj), h1]
  abel

lemma sum_foldl_applyPair (state : List Body) :
    ∀ (ps : List (ℕ × ℕ)) (fs : List (ℝ × ℝ)),
      (∀ p ∈ ps, p.1 < p.2 ∧ p.2 < fs.length) →
      (ps.foldl (applyPair state) fs).sum = fs.sum := by
  intro ps
  induction ps with
  | nil => intro fs _; rfl
  | cons p ps ih =>
    intro fs hps
    have hp := hps p (by simp)
    have hi : p.1 < fs.length := lt_trans hp.1 hp.2
    rw [List.foldl_cons,
      ih (applyPair state fs p)
        (by intro q hq; rw [length_applyPair]; exact hps q (by simp [hq])),
      sum_applyPair state fs p hi hp.2]

lemma sum_accumForces (state : List Body) : (accumForces state).sum = 0 := by
  unfold accumForces
  rw [sum_foldl_applyPair]
  · simp [List.sum_replicate, pair_zero]
  · intro p hp
    simpa [List.length_replicate] using mem_pairIdx hp

/-! ### Momentum bookkeeping for the integration loop -/

lemma momentum_nil : momentum [] = 0 := rfl

lemma momentum_cons (b : Body) (bs : List Body) :
    momentum (b :: bs) = (b.mass * b.vx, b.mass * b.vy) + momentum bs := by
  simp [momentum]

lemma momentum_integrateAux (dt jitter : ℝ) (randS : ℕ → ℕ → ℝ) :
    ∀ (i : ℕ) (bs : List Body) (fs : List (ℝ × ℝ)),
      bs.length = fs.length → (∀ b ∈ bs, b.mass ≠ 0) →
      momentum (integrateAux dt jitter randS i bs fs) =
        momentum bs + (fs.sum.1 * dt, fs.sum.2 * dt) := by
  intro i bs
  induction bs generalizing i with
  | nil =>
    intro fs hlen _
    have : fs = [] := List.length_eq_zero.mp (by simpa using hlen.symm)
    subst this
    simp [integrateAux, momentum_nil]
  | cons b bs ih =>
    intro fs hlen hm
    cases fs with
    | nil => simp at hlen
    | cons f fs =>
      have hb : b.mass ≠ 0 := hm b (by simp)
      have hbs : ∀ x ∈ bs, x.mass ≠ 0 := fun x hx => hm x (by simp [hx])
      have hcancel : ∀ v fv : ℝ, b.mass * (v + fv / b.mass * dt) = b.mass * v + fv * dt := by
        intro v fv
        field_simp
        ring
      have hrest := ih (i + 1) fs (by simpa using hlen) hbs
      simp only [integrateAux, momentum_cons, hrest, updateBody, List.sum_cons]
      rw [Prod.ext_iff]
      constructor <;>
        · simp only [Prod.fst_add, Prod.snd_add]
          rw [hcancel]
          ring

lemma momentum_stepBodies (dt jitter : ℝ) (randS : ℕ → ℕ → ℝ)
    (state : List Body) (h : ∀ b ∈ state, b.mass ≠ 0) :
    momentum (stepBodies dt jitter randS state) = momentum state := by
  unfold stepBodies
  rw [momentum_integrateAux dt jitter randS 0 state (accumForces state)
    (length_accumForces state).symm h, sum_accumForces]
  simp

/-! ### With `jitter = 0` the random draws do not influence the result -/

lemma updateBody_zero_jitter (dt : ℝ) (r r' : ℕ → ℕ → ℝ) (i : ℕ) (b : Body)
    (f : ℝ × ℝ) : updateBody dt 0 r i b f = updateBody dt 0 r' i b f := by
  simp [updateBody]

lemma integrateAux_zero_jitter (dt : ℝ) (r r' : ℕ → ℕ → ℝ) :
    ∀ (i : ℕ) (bs : List Body) (fs : List (ℝ × ℝ)),
      integrateAux dt 0 r i bs fs = integrateAux dt 0 r' i bs fs := by
  intro i bs
  induction bs generalizing i with
  | nil => intro fs; rfl
  | cons b bs ih =>
    intro fs
    cases fs with
    | nil => rfl
    | cons f fs =>
      simp only [integrateAux, updateBody_zero_jitter dt r r' i b f, ih (i + 1) fs]

lemma stepBodies_zero_jitter (dt : ℝ) (r r' : ℕ → ℕ → ℝ) (state : List Body) :
    stepBodies dt 0 r state = stepBodies dt 0 r' state := by
  unfold stepBodies
  exact integrateAux_zero_jitter dt r r' 0 state (accumForces state)

lemma simLoop_zero_jitter (dt : ℝ) (rand1 rand2 : ℕ → ℕ → ℕ → ℝ) :
    ∀ (k : ℕ) (st : List Body) (s : ℕ),
      simLoop dt 0 rand1 st s k = simLoop dt 0 rand2 st s k := by
  intro k
  induction k with
  | zero => intro st s; rfl
  | succ k ih =>
    intro st s
    simp only [simLoop, stepBodies_zero_jitter dt (rand1 s) (rand2 s) st, ih]

/-! ### Which state each recorded snapshot reflects -/

lemma length_stateFrom (dt jitter : ℝ) (rand : ℕ → ℕ → ℕ → ℝ) :
    ∀ (k : ℕ) (st : List Body) (s : ℕ),
      (stateFrom dt jitter rand st s k).length = st.length := by
  intro k
  induction k with
  | zero => intro st s; rfl
  | succ k ih =>
    intro st s
    rw [stateFrom, ih, length_stepBodies]

lemma getD_simLoop (dt jitter : ℝ) (rand : ℕ → ℕ → ℕ → ℝ) :
    ∀ (k m : ℕ) (st : List Body) (s : ℕ), m < k →
      (simLoop dt jitter rand st s k).getD m [] =
        snapshot (stateFrom dt jitter rand st s (m + 1)) := by
  intro k
  induction k with
  | zero => intro m st s hm; exact absurd hm (Nat.not_lt_zero m)
  | succ k ih =>
    intro m st s hm
    cases m with
    | zero => rfl
    | succ m =>
      have : (simLoop dt jitter rand st s (k + 1)).getD (m + 1) [] =
          (simLoop dt jitter rand (stepBodies dt jitter (rand s) st) (s + 1) k).getD m [] := rfl
      rw [this, ih m (stepBodies dt jitter (rand s) st) (s + 1) (Nat.lt_of_succ_lt_succ hm)]
      rfl

/-! ### Heap-level lemmas: the loop writes only to the freshly allocated slice -/

lemma length_writeSlice : ∀ (vs h : List Body) (s : ℕ),
    (writeSlice h s vs).length = h.length := by
  intro vs
  induction vs with
  | nil => intro h s; rfl
  | cons v vs ih => intro h s; rw [writeSlice, ih, List.length_set]

lemma getD_writeSlice_lt (i : ℕ) (d : Body) : ∀ (vs h : List Body) (s : ℕ),
    i < s → (writeSlice h s vs).getD i d = h.getD i d := by
  intro vs
  induction vs with
  | nil => intro h s _; rfl
  | cons v vs ih =>
    intro h s hi
    rw [writeSlice, ih (h.set s v) (s + 1) (Nat.lt_succ_of_lt hi),
      getD_set_ne h s i v d (Nat.ne_of_gt hi)]

lemma writeSlice_eq : ∀ (vs h : List Body) (s : ℕ),
    s + vs.length ≤ h.length →
    writeSlice h s vs = h.take s ++ vs ++ h.drop (s + vs.length) := by
  intro vs
  induction vs with
  | nil => intro h s _; simp [writeSlice]
  | cons v vs ih =>
    intro h s hle
    have hle' : s + (vs.length + 1) ≤ h.length := by simpa using hle
    have hs : s < h.length := by omega
    have hts : (h.take s).length = s := List.length_take_of_le (le_of_lt hs)
    have hA : (h.set s v).take (s + 1) = h.take s ++ [v] := by
      rw [List.set_eq_take_cons_drop v hs, List.take_append_eq_append_take, hts,
        List.take_take]
      have : min (s + 1) s = s := by omega
      rw [this, Nat.add_sub_cancel_left]
      rfl
    have hB : (h.set s v).drop (s + 1 + vs.length) = h.drop (s + 1 + vs.length) := by
      rw [List.set_eq_take_cons_drop v hs, List.drop_append_eq_append_drop, hts]
      have h4 : (h.take s).drop (s + 1 + vs.length) = [] :=
        List.drop_eq_nil_of_le (by rw [hts]; omega)
      have h3 : s + 1 + vs.length - s = vs.length + 1 := by omega
      rw [h4, h3, List.nil_append, List.drop_succ_cons, List.drop_drop]
    rw [writeSlice, ih (h.set s v) (s + 1) (by rw [List.length_set]; omega), hA, hB]
    have hidx : s + 1 + vs.length = s + (v :: vs).length := by simp; omega
    rw [hidx]
    simp [List.append_assoc]

lemma slice_readback (vs h : List Body) (s : ℕ) (hle : s + vs.length ≤ h.length) :
    ((writeSlice h s vs).drop s).take vs.length = vs := by
  rw [writeSlice_eq vs h s hle, List.append_assoc,
    List.drop_left' (List.length_take_of_le (by omega : s ≤ h.length)),
    List.take_left' rfl]

lemma slice_readback_len (vs h : List Body) (s m : ℕ) (hm : vs.length = m)
    (hle : s + m ≤ h.length) : ((writeSlice h s vs).drop s).take m = vs := by
  subst hm
  exact slice_readback vs h s hle

lemma simLoopH_succ (dt jitter : ℝ) (rand : ℕ → ℕ → ℕ → ℝ) (n m : ℕ)
    (h : List Body) (s k : ℕ) :
    simLoopH dt jitter rand n m h s (k + 1) =
      ((simLoopH dt jitter rand n m
          (writeSlice h n (stepBodies dt jitter (rand s) ((h.drop n).take m)))
          (s + 1) k).1,
        snapshot (stepBodies dt jitter (rand s) ((h.drop n).take m)) ::
          (simLoopH dt jitter rand n m
            (writeSlice h n (stepBodies dt jitter (rand s) ((h.drop n).take m)))
            (s + 1) k).2) := rfl

lemma getD_simLoopH_fst (dt jitter : ℝ) (rand : ℕ → ℕ → ℕ → ℝ) (n m i : ℕ)
    (d : Body) (hi : i < n) :
    ∀ (k : ℕ) (h : List Body) (s : ℕ),
      ((simLoopH dt jitter rand n m h s k).1).getD i d = h.getD i d := by
  intro k
  induction k with
  | zero => intro h s; rfl
  | succ k ih =>
    intro h s
    rw [simLoopH_succ, ih, getD_writeSlice_lt i d _ h n hi]

lemma length_simLoopH_fst (dt jitter : ℝ) (rand : ℕ → ℕ → ℕ → ℝ) (n m : ℕ) :
    ∀ (k : ℕ) (h : List Body) (s : ℕ),
      ((simLoopH dt jitter rand n m h s k).1).length = h.length := by
  intro k
  induction k with
  | zero => intro h s; rfl
  | succ k ih =>
    intro h s
    rw [simLoopH_succ, ih, length_writeSlice]

lemma simLoopH_snd (dt jitter : ℝ) (rand : ℕ → ℕ → ℕ → ℝ) (n m : ℕ) :
    ∀ (k : ℕ) (h : List Body) (s : ℕ), h.length = n + m →
      (simLoopH dt jitter rand n m h s k).2 =
        simLoop dt jitter rand ((h.drop n).take m) s k := by
  intro k
  induction k with
  | zero => intro h s _; rfl
  | succ k ih =>
    intro h s hlen
    have hst : ((h.drop n).take m).length = m := by
      rw [List.length_take, List.length_drop, hlen]
      omega
    have hst' : (stepBodies dt jitter (rand s) ((h.drop n).take m)).length = m := by
      rw [length_stepBodies, hst]
    have hw : (writeSlice h n (stepBodies dt jitter (rand s) ((h.drop n).take m))).length
        = n + m := by rw [length_writeSlice, hlen]
    have hrb : ((writeSlice h n
          (stepBodies dt jitter (rand s) ((h.drop n).take m))).drop n).take m =
        stepBodies dt jitter (rand s) ((h.drop n).take m) :=
      slice_readback_len _ h n m hst' (by rw [hlen])
    rw [simLoopH_succ]
    show snapshot _ :: (simLoopH dt jitter rand n m _ (s + 1) k).2 = _
    rw [ih _ (s + 1) hw, hrb]
    rfl

lemma simulateH_snd (bodies : List Body) (dt : ℝ) (steps : ℕ) (jitter : ℝ)
    (rand : ℕ → ℕ → ℕ → ℝ) :
    (simulateH bodies dt steps jitter rand).2 = simulate bodies dt steps jitter rand := by
  unfold simulateH simulate
  rw [simLoopH_snd dt jitter rand bodies.length bodies.length steps
      (bodies ++ bodies.map copyBody) 0 (by simp),
    List.drop_left' rfl]
  have hml : (List.map copyBody bodies).length = bodies.length := by simp
  rw [← hml, List.take_length]

/-! ### Exact evaluation of the two-body spec scenario -/

lemma pairIdx_two : pairIdx 2 = [(0, 1)] := rfl

lemma accumForces_pair (b0 b1 : Body) :
    accumForces [b0, b1] = [pairForce b0 b1, -pairForce b0 b1] := by
  unfold accumForces
  rw [show ([b0, b1] : List Body).length = 2 from rfl, pairIdx_two]
  simp [applyPair, pair_zero, List.replicate, List.getD]

lemma pairForce_scenario :
    pairForce ⟨1, 0, 0, 0, 0⟩ ⟨1, 10, 0, 0, 0⟩ = (q100, 0) := by
  simp only [pairForce, q100, d100, gravDistSq, G]
  norm_num

lemma simulate_scenario :
    simulate [⟨1, 0, 0, 0, 0⟩, ⟨1, 10, 0, 0, 0⟩] 1 1 0 zeroRand =
      [[(q100, 0), (10 - q100, 0)]] := by
  unfold simulate
  rw [show ([⟨1, 0, 0, 0, 0⟩, ⟨1, 10, 0, 0, 0⟩] : List Body).map copyBody =
      [⟨1, 0, 0, 0, 0⟩, ⟨1, 10, 0, 0, 0⟩] from rfl]
  unfold simLoop stepBodies
  rw [accumForces_pair, pairForce_scenario]
  simp only [integrateAux, updateBody, snapshot, List.map, zeroRand, simLoop]
  norm_num
  ring

lemma q100_eq : q100 = 10 / (d100 * Real.sqrt d100) := by
  unfold q100 G
  rw [div_mul_div_comm]
  norm_num

lemma d100_gt : (100 : ℝ) < d100 := by
  unfold d100 gravDistSq
  norm_num

lemma sqrt_d100_gt : (10 : ℝ) < Real.sqrt d100 := by
  have h100 : Real.sqrt 100 = 10 := by
    rw [show (100 : ℝ) = 10 ^ 2 by norm_num, Real.sqrt_sq (by norm_num : (0:ℝ) ≤ 10)]
  have := Real.sqrt_lt_sqrt (by norm_num : (0:ℝ) ≤ 100) d100_gt
  rwa [h100] at this

lemma q100_pos : 0 < q100 := by
  rw [q100_eq]
  have h1 : (0 : ℝ) < d100 := lt_trans (by norm_num) d100_gt
  have h2 : (0 : ℝ) < Real.sqrt d100 := lt_trans (by norm_num) sqrt_d100_gt
  positivity

lemma q100_lt_hundredth : q100 < 1 / 100 := by
  rw [q100_eq]
  have h1 : (1000 : ℝ) < d100 * Real.sqrt d100 := by
    calc (1000 : ℝ) = 100 * 10 := by norm_num
    _ < d100 * Real.sqrt d100 :=
        mul_lt_mul d100_gt (le_of_lt sqrt_d100_gt) (by norm_num)
          (le_of_lt (lt_trans (by norm_num) d100_gt))
  have h2 : 10 / (d100 * Real.sqrt d100) < 10 / 1000 :=
    div_lt_div_of_pos_left (by norm_num) (by norm_num) h1
  calc 10 / (d100 * Real.sqrt d100) < 10 / 1000 := h2
  _ = 1 / 100 := by norm_num

end QSim

open QSim CSim

/-! ### Claim theorems -/

/-- Claim C1, counterexample: the spec scenario (two unit masses at
`(0,0)` and `(10,0)` at rest, `G = 1`, `dt = 1`, one step, no jitter) does
NOT produce the exact snapshot `[(0.01, 0), (9.99, 0)]`: the additive
softening `1e-8` in the denominator makes the displacement strictly
smaller than `0.01`. -/
theorem C1_scenario_not_exact :
    simulate [⟨1, 0, 0, 0, 0⟩, ⟨1, 10, 0, 0, 0⟩] 1 1 0 zeroRand ≠
      [[(1 / 100, 0), (999 / 100, 0)]] := by
  rw [simulate_scenario]
  intro h
  have hq : q100 = 1 / 100 := by
    have := congrArg (fun l => ((l.getD 0 []).getD 0 ((0 : ℝ), (0 : ℝ))).1) h
    simpa using this
  exact absurd hq (ne_of_lt q100_lt_hundredth)

/-- Claim C1, amended: the scenario produces the single snapshot
`[(q, 0), (10 − q, 0)]` where `q = G·1·1/d · (10/√d)` and
`d = 100 + 1e-8`: body 0 is displaced by exactly `+q` along x and body 1
by `−q` (attraction), with the pair force vector `(q, 0)`, and `q` is
positive but strictly below the spec's exact `0.01`. -/
theorem C1_scenario_closed_form :
    simulate [⟨1, 0, 0, 0, 0⟩, ⟨1, 10, 0, 0, 0⟩] 1 1 0 zeroRand =
      [[(q100, 0), (10 - q100, 0)]] ∧
    pairForce ⟨1, 0, 0, 0, 0⟩ ⟨1, 10, 0, 0, 0⟩ = (q100, 0) ∧
    0 < q100 ∧ q100 < 1 / 100 :=
  ⟨simulate_scenario, pairForce_scenario, q100_pos, q100_lt_hundredth⟩

/-- Claim C2, counterexample: in the gravity variant the force-law
denominator at separation `(10, 0)` equals `100 + 1e-8`, which is not
`max(|d|², ε²) = max(100, 1e-8) = 100`: the gravity code adds its
softening constant instead of flooring by it. -/
theorem C2_grav_denominator_not_max_floor :
    gravDistSq 10 0 ≠ max (10 * 10 + 0 * 0) (1 / 100000000 : ℝ) := by
  rw [max_eq_left (by norm_num : (1 / 100000000 : ℝ) ≤ 10 * 10 + 0 * 0)]
  unfold gravDistSq
  norm_num

/-- Claim C2, amended: the Coulomb variant's denominator is the true
squared distance floored at `MIN_DIST_SQ = 25`, exactly as claimed; the
gravity variant instead adds the constant `1e-8` to the true squared
distance, so its denominator strictly exceeds `|d|²` and is not a
max-floor. -/
theorem C2_softening_denominators (dx dy : ℝ) :
    coulombDistSq dx dy = max (dx * dx + dy * dy) 25 ∧
    gravDistSq dx dy = dx * dx + dy * dy + 1 / 100000000 ∧
    dx * dx + dy * dy < gravDistSq dx dy := by
  refine ⟨rfl, rfl, ?_⟩
  unfold gravDistSq
  norm_num

/-- Claim C3, counterexample: `simulate` enforces no resource ceiling:
for every candidate limit `L` there is a call with
`bodies.length × steps > L` that still returns a full `steps`-snapshot
trajectory, so no `ResourceLimitError` is ever raised (none exists in the
code). -/
theorem C3_no_resource_limit_ceiling :
    ¬ ∃ L : ℕ, ∀ (bodies : List Body) (dt : ℝ) (steps : ℕ) (jitter : ℝ)
        (rand : ℕ → ℕ → ℕ → ℝ), L < bodies.length * steps →
        (simulate bodies dt steps jitter rand).length ≠ steps := by
  rintro ⟨L, hL⟩
  exact hL (List.replicate (L + 1) default) 1 1 0 zeroRand
    (by simp) (length_simulate _ _ _ _ _)

/-- Claim C3, amended: `simulate` performs no resource-limit check: even
when `bodies.length × steps` exceeds an arbitrary bound `L` it computes
and returns the complete trajectory of `steps` snapshots. -/
theorem C3_full_trajectory_beyond_any_limit (L : ℕ) (bodies : List Body)
    (dt : ℝ) (steps : ℕ) (jitter : ℝ) (rand : ℕ → ℕ → ℕ → ℝ)
    (_hL : L < bodies.length * steps) :
    (simulate bodies dt steps jitter rand).length = steps :=
  length_simulate bodies dt steps jitter rand

/-- Witness for `C3_full_trajectory_beyond_any_limit`: one body, one step,
bound `L = 0`. -/
theorem C3_full_trajectory_beyond_any_limit_witness :
    0 < ([(⟨1, 2, 3, 4, 5⟩ : Body)].length * 1) ∧
    (simulate [⟨1, 2, 3, 4, 5⟩] 1 1 0 zeroRand).length = 1 :=
  ⟨by decide,
    C3_full_trajectory_beyond_any_limit 0 [⟨1, 2, 3, 4, 5⟩] 1 1 0 zeroRand (by decide)⟩

/-- Claim C4, counterexample: a call with `dt = -1` — negative, which the
claim says must fail with `ValidationError` — instead returns a complete
one-snapshot trajectory with one recorded position: `simulate` performs no
input validation. -/
theorem C4_negative_dt_returns_trajectory :
    (simulate [⟨1, 0, 0, 0, 0⟩] (-1) 1 0 zeroRand).length = 1 ∧
    ((simulate [⟨1, 0, 0, 0, 0⟩] (-1) 1 0 zeroRand).getD 0 []).length = 1 := by
  refine ⟨length_simulate _ _ _ _ _, ?_⟩
  unfold simulate
  rw [getD_simLoop (-1) 0 zeroRand 1 0 _ 0 (by decide)]
  simp [snapshot, length_stateFrom, length_stepBodies]

/-- Claim C4, amended: `simulate` performs no validation of `dt` (nor of
any other input): with `dt ≤ 0` the caller still receives a complete
`steps`-snapshot trajectory and no `ValidationError` is raised (none
exists in the code). -/
theorem C4_no_dt_validation (bodies : List Body) (dt : ℝ) (steps : ℕ)
    (jitter : ℝ) (rand : ℕ → ℕ → ℕ → ℝ) (_hdt : dt ≤ 0) :
    (simulate bodies dt steps jitter rand).length = steps :=
  length_simulate bodies dt steps jitter rand

/-- Witness for `C4_no_dt_validation` at `dt = -1`. -/
theorem C4_no_dt_validation_witness :
    ((-1 : ℝ) ≤ 0) ∧ (simulate [⟨1, 0, 0, 0, 0⟩] (-1) 2 0 zeroRand).length = 2 :=
  ⟨by norm_num, C4_no_dt_validation [⟨1, 0, 0, 0, 0⟩] (-1) 2 0 zeroRand (by norm_num)⟩

/-- Claim C5, counterexample: a gravity-variant call in which the first
body has mass `0` — which the claim says must fail with `DomainError` —
returns a complete one-snapshot trajectory: the engine has no zero-mass
check and the division by mass is performed regardless. -/
theorem C5_zero_mass_returns_trajectory :
    (simulate [⟨0, 0, 0, 0, 0⟩, ⟨1, 10, 0, 0, 0⟩] 1 1 0 zeroRand).length = 1 :=
  length_simulate _ _ _ _ _

/-- Claim C5, amended: the engine performs no zero-mass check: whenever a
body has mass `0`, `simulate` still returns a complete `steps`-snapshot
trajectory instead of failing with a `DomainError` (no such error exists
in the code; in the JS float semantics the division yields non-finite
values that propagate silently). -/
theorem C5_no_zero_mass_check (b : Body) (bs : List Body) (dt : ℝ)
    (steps : ℕ) (jitter : ℝ) (rand : ℕ → ℕ → ℕ → ℝ) (_hb : b.mass = 0) :
    (simulate (b :: bs) dt steps jitter rand).length = steps :=
  length_simulate (b :: bs) dt steps jitter rand

/-- Witness for `C5_no_zero_mass_check` with a zero-mass body. -/
theorem C5_no_zero_mass_check_witness :
    ((⟨0, 0, 0, 0, 0⟩ : Body).mass = 0) ∧
    (simulate [⟨0, 0, 0, 0, 0⟩, ⟨1, 10, 0, 3, 4⟩] 1 2 0 zeroRand).length = 2 :=
  ⟨rfl, C5_no_zero_mass_check ⟨0, 0, 0, 0, 0⟩ [⟨1, 10, 0, 3, 4⟩] 1 2 0 zeroRand rfl⟩

/-- Claim C6: the caller-supplied bodies are never mutated: in the
heap-level model of `simulate`, where the loop's writes go to the objects
allocated by the entry deep copy, every body object the caller passed in
is unchanged when `simulate` returns, and the heap model returns exactly
the trajectory of the functional `simulate`. -/
theorem C6_input_bodies_not_mutated (bodies : List Body) (dt : ℝ)
    (steps : ℕ) (jitter : ℝ) (rand : ℕ → ℕ → ℕ → ℝ) (i : ℕ)
    (hi : i < bodies.length) :
    (simulateH bodies dt steps jitter rand).1.getD i default =
      bodies.getD i default ∧
    (simulateH bodies dt steps jitter rand).2 =
      simulate bodies dt steps jitter rand := by
  refine ⟨?_, simulateH_snd bodies dt steps jitter rand⟩
  unfold simulateH
  rw [getD_simLoopH_fst dt jitter rand bodies.length bodies.length i default hi,
    getD_append_lt bodies (bodies.map copyBody) i default hi]

/-- Witness for `C6_input_bodies_not_mutated` at a one-body input. -/
theorem C6_input_bodies_not_mutated_witness :
    0 < ([(⟨1, 2, 3, 4, 5⟩ : Body)].length) ∧
    ((simulateH [⟨1, 2, 3, 4, 5⟩] 1 1 0 zeroRand).1.getD 0 default =
        ([(⟨1, 2, 3, 4, 5⟩ : Body)]).getD 0 default ∧
      (simulateH [⟨1, 2, 3, 4, 5⟩] 1 1 0 zeroRand).2 =
        simulate [⟨1, 2, 3, 4, 5⟩] 1 1 0 zeroRand) :=
  ⟨by decide, C6_input_bodies_not_mutated [⟨1, 2, 3, 4, 5⟩] 1 1 0 zeroRand 0 (by decide)⟩

/-- Claim C7: `simulate` returns exactly `steps` snapshots (`steps = 0`
yields the empty sequence); the `k`-th snapshot is the ordered list of
`(x, y)` positions, one per input body in input index order, of the state
reached after `k + 1` integration steps — i.e. positions as they stand
after that step's integration. -/
theorem C7_trajectory_shape (bodies : List Body) (dt : ℝ) (steps : ℕ)
    (jitter : ℝ) (rand : ℕ → ℕ → ℕ → ℝ) :
    (simulate bodies dt steps jitter rand).length = steps ∧
    simulate bodies dt 0 jitter rand = [] ∧
    ∀ k, k < steps →
      (simulate bodies dt steps jitter rand).getD k [] =
        snapshot (stateFrom dt jitter rand (bodies.map copyBody) 0 (k + 1)) ∧
      ((simulate bodies dt steps jitter rand).getD k []).length = bodies.length := by
  refine ⟨length_simulate _ _ _ _ _, rfl, fun k hk => ?_⟩
  have h := getD_simLoop dt jitter rand steps k (bodies.map copyBody) 0 hk
  unfold simulate
  refine ⟨h, ?_⟩
  rw [h]
  simp [snapshot, length_stateFrom]

/-- Witness for `C7_trajectory_shape` at one body, two steps, `k = 0`. -/
theorem C7_trajectory_shape_witness :
    (0 : ℕ) < 2 ∧
    ((simulate [⟨1, 2, 3, 4, 5⟩] 1 2 0 zeroRand).getD 0 [] =
        snapshot (stateFrom 1 0 zeroRand ([(⟨1, 2, 3, 4, 5⟩ : Body)].map copyBody) 0 1) ∧
      ((simulate [⟨1, 2, 3, 4, 5⟩] 1 2 0 zeroRand).getD 0 []).length = 1) :=
  ⟨by decide, (C7_trajectory_shape [⟨1, 2, 3, 4, 5⟩] 1 2 0 zeroRand).2.2 0 (by decide)⟩

/-- Claim C8: with `jitter = 0` the random draws contribute exactly zero
to every position update, so two runs of `simulate` on identical bodies,
`dt` and `steps` produce exactly equal trajectories whatever values the
random source yields. -/
theorem C8_zero_jitter_deterministic (bodies : List Body) (dt : ℝ)
    (steps : ℕ) (rand1 rand2 : ℕ → ℕ → ℕ → ℝ) :
    simulate bodies dt steps 0 rand1 = simulate bodies dt steps 0 rand2 := by
  unfold simulate
  exact simLoop_zero_jitter dt rand1 rand2 steps (bodies.map copyBody) 0

/-- Claim C9: in one pair interaction, under either force law, the force
vector added to body `i`'s accumulator is the exact negation of the force
vector added to body `j`'s accumulator (Newton's third law): stated for
the gravity pair loop via the accumulator deltas of `applyPair`, and for
the Coulomb draw loop via the accumulator deltas of `coulombApplyPair`. -/
theorem C9_third_law (state : List Body) (forces : List (ℝ × ℝ)) (i j : ℕ)
    (hi : i < forces.length) (hj : j < forces.length) (hij : i ≠ j)
    (p1 p2 : Particle) :
    (applyPair state forces (i, j)).getD i (0, 0) - forces.getD i (0, 0) =
      -((applyPair state forces (i, j)).getD j (0, 0) - forces.getD j (0, 0)) ∧
    (coulombApplyPair p1 p2).1.acc - p1.acc =
      -((coulombApplyPair p1 p2).2.acc - p2.acc) := by
  constructor
  · simp only [applyPair]
    rw [getD_set_ne _ j i _ _ (Ne.symm hij),
      getD_set_self forces i _ _ hi,
      getD_set_self _ j _ _ (by rw [List.length_set]; exact hj),
      getD_set_ne forces i j _ _ hij]
    abel
  · simp only [coulombApplyPair, applyForce, one_smul, neg_smul]
    abel

/-- Witness for `C9_third_law` at a concrete two-body state and two
concrete particles. -/
theorem C9_third_law_witness :
    0 < ([((0 : ℝ), (0 : ℝ)), (0, 0)] : List (ℝ × ℝ)).length ∧
    1 < ([((0 : ℝ), (0 : ℝ)), (0, 0)] : List (ℝ × ℝ)).length ∧
    (0 : ℕ) ≠ 1 ∧
    ((applyPair [⟨1, 0, 0, 0, 0⟩, ⟨1, 10, 0, 0, 0⟩] [(0, 0), (0, 0)] (0, 1)).getD 0 (0, 0) -
        ([((0 : ℝ), (0 : ℝ)), (0, 0)] : List (ℝ × ℝ)).getD 0 (0, 0) =
      -((applyPair [⟨1, 0, 0, 0, 0⟩, ⟨1, 10, 0, 0, 0⟩] [(0, 0), (0, 0)] (0, 1)).getD 1 (0, 0) -
        ([((0 : ℝ), (0 : ℝ)), (0, 0)] : List (ℝ × ℝ)).getD 1 (0, 0))) ∧
    ((coulombApplyPair ⟨(0, 0), (0, 0), (0, 0), 1⟩ ⟨(3, 4), (0, 0), (0, 0), -1⟩).1.acc -
        (Particle.mk (0, 0) (0, 0) (0, 0) 1).acc =
      -((coulombApplyPair ⟨(0, 0), (0, 0), (0, 0), 1⟩ ⟨(3, 4), (0, 0), (0, 0), -1⟩).2.acc -
        (Particle.mk (3, 4) (0, 0) (0, 0) (-1)).acc)) := by
  refine ⟨by decide, by decide, by decide, ?_, ?_⟩
  · exact (C9_third_law [⟨1, 0, 0, 0, 0⟩, ⟨1, 10, 0, 0, 0⟩] [(0, 0), (0, 0)] 0 1
      (by decide) (by decide) (by decide)
      ⟨(0, 0), (0, 0), (0, 0), 1⟩ ⟨(3, 4), (0, 0), (0, 0), -1⟩).1
  · exact (C9_third_law [⟨1, 0, 0, 0, 0⟩, ⟨1, 10, 0, 0, 0⟩] [(0, 0), (0, 0)] 0 1
      (by decide) (by decide) (by decide)
      ⟨(0, 0), (0, 0), (0, 0), 1⟩ ⟨(3, 4), (0, 0), (0, 0), -1⟩).2

/-- Claim C10: one integration step of the gravity variant preserves total
linear momentum in exact real arithmetic: if every mass is non-zero, the
componentwise sum of `mass · velocity` over all bodies is unchanged by
`stepBodies`, for any `dt`, any `jitter` and any random draws (jitter
perturbs positions only). -/
theorem C10_momentum_conserved (dt jitter : ℝ) (randS : ℕ → ℕ → ℝ)
    (state : List Body) (h : ∀ b ∈ state, b.mass ≠ 0) :
    momentum (stepBodies dt jitter randS state) = momentum state :=
  momentum_stepBodies dt jitter randS state h

/-- Witness for `C10_momentum_conserved` at a concrete two-body state with
non-zero masses. -/
theorem C10_momentum_conserved_witness :
    (∀ b ∈ ([⟨1, 0, 0, 0, 0⟩, ⟨2, 10, 0, 3, 4⟩] : List Body), b.mass ≠ 0) ∧
    momentum (stepBodies 1 0 (zeroRand 0) [⟨1, 0, 0, 0, 0⟩, ⟨2, 10, 0, 3, 4⟩]) =
      momentum [⟨1, 0, 0, 0, 0⟩, ⟨2, 10, 0, 3, 4⟩] := by
  have hmass : ∀ b ∈ ([⟨1, 0, 0, 0, 0⟩, ⟨2, 10, 0, 3, 4⟩] : List Body), b.mass ≠ 0 := by
    intro b hb
    rcases List.mem_cons.mp hb with rfl | hb
    · show (1 : ℝ) ≠ 0
      norm_num
    rcases List.mem_cons.mp hb with rfl | hb
    · show (2 : ℝ) ≠ 0
      norm_num
    · simp at hb
  exact ⟨hmass, C10_momentum_conserved 1 0 (zeroRand 0) _ hmass⟩
